import Mathlib

/-!
Verification of the morphing Christmas-tree scene.

The program renders an ornamental tree made of several instanced particle
groups.  A shared `MorphingSystem` component interpolates every particle
between a stored "scatter" end state and a stored "tree" end state, driven
by a morph factor that chases a target of 1 (assembled) or 0 (scattered).
An overlay panel toggles the lights, the assembly state and a rotation
speed.  The definitions below are a shallow embedding of that code over
the real numbers; the theorems settle the specification claims about it.
-/

namespace XmasScene

noncomputable section

open Real

/-- A 3-component vector, standing for THREE.Vector3. -/
structure Vec3 where
  x : ℝ
  y : ℝ
  z : ℝ

/-- Euler angles, standing for THREE.Euler. -/
structure Euler3 where
  ex : ℝ
  ey : ℝ
  ez : ℝ

/-- THREE.MathUtils.lerp: linear interpolation (1 - t) * x + t * y. -/
def lerp (x y t : ℝ) : ℝ := (1 - t) * x + t * y

/-- THREE.MathUtils.clamp: Math.max(lo, Math.min(hi, v)). -/
def clamp (v lo hi : ℝ) : ℝ := max lo (min hi v)

/-- Tree geometry constant TREE_HEIGHT = 9.5. -/
def TREE_HEIGHT : ℝ := 9.5

/-- Tree geometry constant TREE_RADIUS = 3.8. -/
def TREE_RADIUS : ℝ := 3.8

/-- Instance count of the foliage group. -/
def FOLIAGE_COUNT : ℕ := 2200

/-- Instance count of the ribbon group. -/
def RIBBON_PARTICLE_COUNT : ℕ := 500

/-- Instance count of the bauble group. -/
def BAUBLE_COUNT : ℕ := 120

/-- Instance count of the gift group. -/
def GIFT_COUNT : ℕ := 35

/-- Instance count of the medallion (cookie) group. -/
def COOKIE_COUNT : ℕ := 35

/-- The per-frame morph-factor update of MorphingSystem:
`factor.current = THREE.MathUtils.lerp(factor.current, target, delta * 1.5)`. -/
def updateFactor (f target delta : ℝ) : ℝ := lerp f target (delta * 1.5)

/-- The per-particle timing offset of MorphingSystem:
`particleT = clamp(t * speeds[i] + (t > 0.5 ? 0.1 : -0.1), 0, 1)`. -/
def particleT (t speed : ℝ) : ℝ :=
  clamp (t * speed + (if (0.5 : ℝ) < t then (0.1 : ℝ) else (-0.1 : ℝ))) 0 1

/-- The eased per-particle parameter of MorphingSystem:
`smoothT = particleT * particleT * (3 - 2 * particleT)`. -/
def smoothT (t speed : ℝ) : ℝ :=
  particleT t speed * particleT t speed * (3 - 2 * particleT t speed)

/-- The per-frame base position of a particle, before the sinusoidal hover
offset is added: componentwise `lerp(scatter, tree, smoothT)`. -/
def basePos (t speed : ℝ) (scatter tree : Vec3) : Vec3 :=
  ⟨lerp scatter.x tree.x (smoothT t speed),
   lerp scatter.y tree.y (smoothT t speed),
   lerp scatter.z tree.z (smoothT t speed)⟩

/-- The spin toggle button of the overlay:
`setRotationSpeed(rotationSpeed > 0 ? 0 : 0.5)`. -/
def toggleSpin (s : ℝ) : ℝ := if 0 < s then 0 else 0.5

/-- Intensity of the point light nested in the star topper:
`intensity={lightsOn ? 3 : 0}`. -/
def starLightIntensity (lightsOn : Bool) : ℝ := if lightsOn then 3 else 0

/-- Intensity of the internal "soul" point light:
`intensity={isAssembled && lightsOn ? 2 : 0}`. -/
def soulLightIntensity (isAssembled lightsOn : Bool) : ℝ :=
  if isAssembled && lightsOn then 2 else 0

/-- Clamping to [0, 1] lands in [0, 1]. -/
lemma clamp01_mem (v : ℝ) : 0 ≤ clamp v 0 1 ∧ clamp v 0 1 ≤ 1 := by
  unfold clamp
  constructor
  · exact le_max_left _ _
  · exact max_le (by norm_num) (min_le_left _ _)

/-- The smoothstep polynomial stays in [0, 1] on [0, 1]. -/
lemma smoothstep_mem {p : ℝ} (h0 : 0 ≤ p) (h1 : p ≤ 1) :
    0 ≤ p * p * (3 - 2 * p) ∧ p * p * (3 - 2 * p) ≤ 1 := by
  constructor
  · nlinarith
  · nlinarith [mul_nonneg (sq_nonneg (1 - p)) h0]

/-- The smoothstep polynomial is monotone on [0, 1]. -/
lemma smoothstep_mono {a b : ℝ} (ha : 0 ≤ a) (hab : a ≤ b) (hb : b ≤ 1) :
    a * a * (3 - 2 * a) ≤ b * b * (3 - 2 * b) := by
  nlinarith [mul_nonneg ha (sub_nonneg.2 hab), mul_nonneg (sub_nonneg.2 hab) (sub_nonneg.2 hb)]

/-- At morph factor 1 a particle whose speed is at least 0.9 has eased
parameter exactly 1. -/
lemma particleT_at_one {speed : ℝ} (h : (0.9 : ℝ) ≤ speed) : particleT 1 speed = 1 := by
  unfold particleT clamp
  rw [if_pos (by norm_num : (0.5 : ℝ) < 1)]
  rw [min_eq_left (by linarith), max_eq_right (by norm_num)]

/-- At morph factor 0 every particle has eased parameter exactly 0. -/
lemma particleT_at_zero (speed : ℝ) : particleT 0 speed = 0 := by
  unfold particleT clamp
  rw [if_neg (by norm_num : ¬ (0.5 : ℝ) < 0)]
  rw [show (0 : ℝ) * speed + -0.1 = -0.1 by ring]
  rw [min_eq_right (by norm_num), max_eq_left (by norm_num)]

lemma lerp_at_one (x y : ℝ) : lerp x y 1 = y := by unfold lerp; ring

lemma lerp_at_zero (x y : ℝ) : lerp x y 0 = x := by unfold lerp; ring

/-- C1. The claim as written is refuted: at morph factor 1 a particle with
speed 0.5 (inside the generated range [0.5, 1]) does not sit at its tree
position — with scatter (0,0,0) and tree (1,0,0) the computed base position
has x-coordinate 81/125. -/
theorem C1_counterexample :
    basePos 1 (0.5) ⟨0, 0, 0⟩ ⟨1, 0, 0⟩ ≠ (⟨1, 0, 0⟩ : Vec3) := by
  have hp : particleT 1 (0.5) = 3 / 5 := by
    unfold particleT clamp
    rw [if_pos (by norm_num : (0.5 : ℝ) < 1)]
    rw [min_eq_right (by norm_num), max_eq_right (by norm_num)]
    norm_num
  have hs : smoothT 1 (0.5) = 81 / 125 := by
    unfold smoothT
    rw [hp]; norm_num
  intro h
  have hx := congrArg Vec3.x h
  simp only [basePos, lerp, hs] at hx
  norm_num at hx

/-- C1 (amended). At morph factor 1 the computed base position equals the
stored tree end-state position for every per-particle speed in [0.9, 1]
(speeds below 0.9 leave the clamped eased parameter short of 1). -/
theorem C1_assembled_base_pos (speed : ℝ) (scatter tree : Vec3)
    (h1 : (0.9 : ℝ) ≤ speed) (h2 : speed ≤ 1) :
    basePos 1 speed scatter tree = tree := by
  have hs : smoothT 1 speed = 1 := by
    unfold smoothT
    rw [particleT_at_one h1]; norm_num
  unfold basePos
  rw [hs, lerp_at_one, lerp_at_one, lerp_at_one]

/-- Witness for C1 (amended) at speed 1. -/
theorem C1_assembled_base_pos_witness :
    (0.9 : ℝ) ≤ 1 ∧ basePos 1 1 ⟨0, 0, 0⟩ ⟨1, 2, 3⟩ = (⟨1, 2, 3⟩ : Vec3) :=
  ⟨by norm_num, C1_assembled_base_pos 1 ⟨0, 0, 0⟩ ⟨1, 2, 3⟩ (by norm_num) (by norm_num)⟩

/-- C2. At morph factor 0 the computed base position equals the stored
scatter end-state position, for every per-particle speed in [0.5, 1]. -/
theorem C2_scattered_base_pos (speed : ℝ) (scatter tree : Vec3)
    (h1 : (0.5 : ℝ) ≤ speed) (h2 : speed ≤ 1) :
    basePos 0 speed scatter tree = scatter := by
  have hs : smoothT 0 speed = 0 := by
    unfold smoothT
    rw [particleT_at_zero]; norm_num
  unfold basePos
  rw [hs, lerp_at_zero, lerp_at_zero, lerp_at_zero]

/-- Witness for C2 at speed 0.5. -/
theorem C2_scattered_base_pos_witness :
    (0.5 : ℝ) ≤ 0.5 ∧ basePos 0 (0.5) ⟨4, 5, 6⟩ ⟨1, 2, 3⟩ = (⟨4, 5, 6⟩ : Vec3) :=
  ⟨le_refl _, C2_scattered_base_pos (0.5) ⟨4, 5, 6⟩ ⟨1, 2, 3⟩ (by norm_num) (by norm_num)⟩

/-- C3. The morph-factor update keeps the factor in [0, 1] and never
increases its distance to the target (1 when assembled, 0 when scattered),
whenever 0 ≤ delta and delta * 1.5 ≤ 1. -/
theorem C3_factor_invariant (f target delta : ℝ)
    (htgt : target = 0 ∨ target = 1) (hd : 0 ≤ delta) (hd1 : delta * 1.5 ≤ 1)
    (hf0 : 0 ≤ f) (hf1 : f ≤ 1) :
    0 ≤ updateFactor f target delta ∧ updateFactor f target delta ≤ 1 ∧
      |updateFactor f target delta - target| ≤ |f - target| := by
  have ha : 0 ≤ delta * 1.5 := by linarith
  refine ⟨?_, ?_, ?_⟩
  · rcases htgt with rfl | rfl <;> unfold updateFactor lerp <;> nlinarith
  · rcases htgt with rfl | rfl <;> unfold updateFactor lerp <;> nlinarith
  · have he : updateFactor f target delta - target = (1 - delta * 1.5) * (f - target) := by
      unfold updateFactor lerp; ring
    rw [he, abs_mul, abs_of_nonneg (by linarith : (0 : ℝ) ≤ 1 - delta * 1.5)]
    exact mul_le_of_le_one_left (abs_nonneg _) (by linarith)

/-- Witness for C3 at factor 0.5, target 1, delta 1/3. -/
theorem C3_factor_invariant_witness :
    ((1 : ℝ) = 0 ∨ (1 : ℝ) = 1) ∧ (0 : ℝ) ≤ 1 / 3 ∧ (1 / 3 : ℝ) * 1.5 ≤ 1 ∧
      (0 ≤ updateFactor (0.5) 1 (1 / 3) ∧ updateFactor (0.5) 1 (1 / 3) ≤ 1 ∧
        |updateFactor (0.5) 1 (1 / 3) - 1| ≤ |(0.5 : ℝ) - 1|) :=
  ⟨Or.inr rfl, by norm_num, by norm_num,
    C3_factor_invariant (0.5) 1 (1 / 3) (Or.inr rfl) (by norm_num) (by norm_num)
      (by norm_num) (by norm_num)⟩

/-- C4. The claim as written is refuted: with the lights toggled on but the
tree scattered, the internal "soul" point light has intensity 0, not a
positive one. -/
theorem C4_counterexample :
    ¬ (0 < soulLightIntensity false true ↔ (true : Bool) = true) := by
  unfold soulLightIntensity
  norm_num

/-- C4 (amended). The point light of the star is lit exactly when the light
toggle is on, while the internal soul light is lit exactly when the light
toggle is on and the tree is assembled. -/
theorem C4_lights (lightsOn isAssembled : Bool) :
    (0 < starLightIntensity lightsOn ↔ lightsOn = true) ∧
      (0 < soulLightIntensity isAssembled lightsOn ↔ (isAssembled && lightsOn) = true) := by
  cases lightsOn <;> cases isAssembled <;>
    simp [starLightIntensity, soulLightIntensity]

/-- C5. The spin toggle sets the speed to 0 when the current speed is
strictly positive and to 0.5 otherwise, and clicking twice from a speed in
\x7b0, 0.5\x7d restores the original speed. -/
theorem C5_spin_toggle (s : ℝ) :
    (0 < s → toggleSpin s = 0) ∧ (¬ 0 < s → toggleSpin s = 0.5) ∧
      (s = 0 ∨ s = 0.5 → toggleSpin (toggleSpin s) = s) := by
  refine ⟨fun h => ?_, fun h => ?_, fun h => ?_⟩
  · unfold toggleSpin; rw [if_pos h]
  · unfold toggleSpin; rw [if_neg h]
  · rcases h with rfl | rfl
    · unfold toggleSpin
      rw [if_neg (by norm_num : ¬ (0 : ℝ) < 0)]
      rw [if_pos (by norm_num : (0 : ℝ) < 0.5)]
    · unfold toggleSpin
      rw [if_pos (by norm_num : (0 : ℝ) < 0.5)]
      rw [if_neg (by norm_num : ¬ (0 : ℝ) < 0)]

/-- Witness for C5 at speeds 0.5 and 0. -/
theorem C5_spin_toggle_witness :
    toggleSpin (0.5) = 0 ∧ toggleSpin 0 = 0.5 ∧
      toggleSpin (toggleSpin (0.5)) = 0.5 :=
  ⟨(C5_spin_toggle (0.5)).1 (by norm_num), (C5_spin_toggle 0).2.1 (by norm_num),
    (C5_spin_toggle (0.5)).2.2 (Or.inr rfl)⟩

/-- The instance counts of the five MorphingSystem groups mounted by
ChristmasTree, in source order. -/
def christmasTreeGroupCounts : List ℕ :=
  [FOLIAGE_COUNT, RIBBON_PARTICLE_COUNT, BAUBLE_COUNT, GIFT_COUNT, COOKIE_COUNT]

/-- C8. The five instanced groups total exactly 2890 instances, a number at
least 2000. -/
theorem C8_instance_total :
    christmasTreeGroupCounts.sum = 2890 ∧ 2000 ≤ christmasTreeGroupCounts.sum := by
  constructor <;> decide

/-- Clamping is monotone in the clamped value. -/
lemma clamp_mono {v1 v2 lo hi : ℝ} (h : v1 ≤ v2) : clamp v1 lo hi ≤ clamp v2 lo hi := by
  unfold clamp
  exact max_le_max le_rfl (min_le_min le_rfl h)

/-- The eased per-particle parameter always lies in [0, 1]. -/
lemma particleT_mem (t speed : ℝ) : 0 ≤ particleT t speed ∧ particleT t speed ≤ 1 :=
  clamp01_mem _

/-- C9. The eased per-particle parameter smoothT lies in [0, 1] for every
morph factor t in [0, 1], and for a fixed speed in [0.5, 1] it is monotone
non-decreasing in t on [0, 0.5] and on (0.5, 1]. -/
theorem C9_eased_parameter (speed t t1 t2 : ℝ)
    (hs1 : (0.5 : ℝ) ≤ speed) (hs2 : speed ≤ 1) :
    (0 ≤ t → t ≤ 1 → 0 ≤ smoothT t speed ∧ smoothT t speed ≤ 1) ∧
      (0 ≤ t1 → t1 ≤ t2 → t2 ≤ 0.5 → smoothT t1 speed ≤ smoothT t2 speed) ∧
      ((0.5 : ℝ) < t1 → t1 ≤ t2 → t2 ≤ 1 → smoothT t1 speed ≤ smoothT t2 speed) := by
  have hsp : (0 : ℝ) ≤ speed := by linarith
  refine ⟨fun _ _ => ?_, fun h0 h12 hhalf => ?_, fun hhalf h12 h1 => ?_⟩
  · unfold smoothT
    exact smoothstep_mem (particleT_mem t speed).1 (particleT_mem t speed).2
  · have hmono : particleT t1 speed ≤ particleT t2 speed := by
      unfold particleT
      rw [if_neg (by linarith : ¬ (0.5 : ℝ) < t1), if_neg (by linarith : ¬ (0.5 : ℝ) < t2)]
      exact clamp_mono (by nlinarith)
    unfold smoothT
    exact smoothstep_mono (particleT_mem t1 speed).1 hmono (particleT_mem t2 speed).2
  · have hmono : particleT t1 speed ≤ particleT t2 speed := by
      unfold particleT
      rw [if_pos hhalf, if_pos (by linarith : (0.5 : ℝ) < t2)]
      exact clamp_mono (by nlinarith)
    unfold smoothT
    exact smoothstep_mono (particleT_mem t1 speed).1 hmono (particleT_mem t2 speed).2

/-- Witness for C9 at speed 0.5, with factor pairs inside each interval. -/
theorem C9_eased_parameter_witness :
    (0 ≤ smoothT 1 (0.5) ∧ smoothT 1 (0.5) ≤ 1) ∧
      smoothT (0.2) (0.5) ≤ smoothT (0.5) (0.5) ∧
      smoothT (0.6) (0.5) ≤ smoothT 1 (0.5) :=
  ⟨(C9_eased_parameter (0.5) 1 0 0 (by norm_num) (by norm_num)).1 (by norm_num) (by norm_num),
   (C9_eased_parameter (0.5) 0 (0.2) (0.5) (by norm_num) (by norm_num)).2.1
     (by norm_num) (by norm_num) (by norm_num),
   (C9_eased_parameter (0.5) 0 (0.6) 1 (by norm_num) (by norm_num)).2.2
     (by norm_num) (by norm_num) (by norm_num)⟩

/-- The record returned by a generatePositions callback of MorphingSystem. -/
structure GenResult where
  tree : Vec3
  scatter : Vec3
  scale : ℝ
  rotation : Option Euler3

/-- The three consecutive slots a Vector3 occupies in a flat position
array. -/
def vecTriple (v : Vec3) : List ℝ := [v.x, v.y, v.z]

/-- The three consecutive rotation slots of a particle: the generated
rotation when present, otherwise three fresh random angles in [0, π). -/
def rotTriple (res : GenResult) (rx ry rz : ℝ) : List ℝ :=
  match res.rotation with
  | some r => [r.ex, r.ey, r.ez]
  | none => [rx * π, ry * π, rz * π]

/-- The per-particle arrays built by the useMemo block of MorphingSystem. -/
structure ParticleData where
  treePositions : List ℝ
  scatterPositions : List ℝ
  scales : List ℝ
  speeds : List ℝ
  phases : List ℝ
  treeRotations : List ℝ

/-- The generation loop of MorphingSystem: particle i stores its generated
tree and scatter coordinates in slots 3i..3i+2, its rotation (generated, or
random when absent), its scale times baseScale, a random speed in [0.5, 1)
and a random phase in [0, 2π).  The functions rA..rP stand for the
successive Math.random() draws of iteration i. -/
def buildData (count : ℕ) (g : ℕ → GenResult) (baseScale : ℝ)
    (rA rB rC rS rP : ℕ → ℝ) : ParticleData :=
  { treePositions := (List.range count).flatMap fun i => vecTriple (g i).tree,
    scatterPositions := (List.range count).flatMap fun i => vecTriple (g i).scatter,
    scales := (List.range count).map fun i => (g i).scale * baseScale,
    speeds := (List.range count).map fun i => 0.5 + rS i * 0.5,
    phases := (List.range count).map fun i => rP i * π * 2,
    treeRotations := (List.range count).flatMap fun i => rotTriple (g i) (rA i) (rB i) (rC i) }

/-- A flatMap over an initial segment with chunks of size three has length
three times the segment. -/
lemma flatMap_range_length {α : Type} (f : ℕ → List α) (h : ∀ j, (f j).length = 3) (n : ℕ) :
    ((List.range n).flatMap f).length = 3 * n := by
  induction n with
  | zero => simp
  | succ n ih =>
    rw [List.range_succ]
    simp only [List.flatMap_append, List.length_append, ih]
    simp [h n]
    omega

/-- Slot 3i+k of a flatMap with chunks of size three is slot k of chunk i. -/
lemma flatMap_range_getElem {α : Type} (f : ℕ → List α) (h : ∀ j, (f j).length = 3)
    (n i k : ℕ) (hi : i < n) (hk : k < 3) :
    ((List.range n).flatMap f)[3 * i + k]? = (f i)[k]? := by
  induction n with
  | zero => omega
  | succ n ih =>
    rw [List.range_succ]
    simp only [List.flatMap_append, List.flatMap_cons, List.flatMap_nil, List.append_nil]
    rcases Nat.lt_or_ge i n with h1 | h1
    · rw [List.getElem?_append_left (by rw [flatMap_range_length f h]; omega)]
      exact ih h1
    · have hin : i = n := by omega
      subst hin
      rw [List.getElem?_append_right (by rw [flatMap_range_length f h]; omega)]
      rw [flatMap_range_length f h]
      congr 1
      omega

/-- Every vecTriple has length three. -/
lemma vecTriple_length (v : Vec3) : (vecTriple v).length = 3 := rfl

/-- Every rotTriple has length three. -/
lemma rotTriple_length (res : GenResult) (rx ry rz : ℝ) :
    (rotTriple res rx ry rz).length = 3 := by
  unfold rotTriple
  cases res.rotation <;> rfl

/-- C6. Every per-particle array of MorphingSystem has the expected length
(count for scales, speeds and phases; 3 * count for the position and
rotation arrays), and the generation loop fills every slot: slot i of each
scalar array, and slots 3i..3i+2 of each flat vector array, hold the values
generated for particle i. -/
theorem C6_array_lengths (count i : ℕ) (g : ℕ → GenResult) (baseScale : ℝ)
    (rA rB rC rS rP : ℕ → ℝ) :
    (buildData count g baseScale rA rB rC rS rP).scales.length = count ∧
      (buildData count g baseScale rA rB rC rS rP).speeds.length = count ∧
      (buildData count g baseScale rA rB rC rS rP).phases.length = count ∧
      (buildData count g baseScale rA rB rC rS rP).treePositions.length = 3 * count ∧
      (buildData count g baseScale rA rB rC rS rP).scatterPositions.length = 3 * count ∧
      (buildData count g baseScale rA rB rC rS rP).treeRotations.length = 3 * count ∧
      (i < count →
        (buildData count g baseScale rA rB rC rS rP).scales[i]? = some ((g i).scale * baseScale) ∧
        (buildData count g baseScale rA rB rC rS rP).speeds[i]? = some (0.5 + rS i * 0.5) ∧
        (buildData count g baseScale rA rB rC rS rP).phases[i]? = some (rP i * π * 2) ∧
        (buildData count g baseScale rA rB rC rS rP).treePositions[3 * i]? = some (g i).tree.x ∧
        (buildData count g baseScale rA rB rC rS rP).treePositions[3 * i + 1]? = some (g i).tree.y ∧
        (buildData count g baseScale rA rB rC rS rP).treePositions[3 * i + 2]? = some (g i).tree.z ∧
        (buildData count g baseScale rA rB rC rS rP).scatterPositions[3 * i]? = some (g i).scatter.x ∧
        (buildData count g baseScale rA rB rC rS rP).scatterPositions[3 * i + 1]? = some (g i).scatter.y ∧
        (buildData count g baseScale rA rB rC rS rP).scatterPositions[3 * i + 2]? = some (g i).scatter.z ∧
        (buildData count g baseScale rA rB rC rS rP).treeRotations[3 * i]? = (rotTriple (g i) (rA i) (rB i) (rC i))[0]? ∧
        (buildData count g baseScale rA rB rC rS rP).treeRotations[3 * i + 1]? = (rotTriple (g i) (rA i) (rB i) (rC i))[1]? ∧
        (buildData count g baseScale rA rB rC rS rP).treeRotations[3 * i + 2]? = (rotTriple (g i) (rA i) (rB i) (rC i))[2]?) := by
  unfold buildData
  simp only
  refine ⟨by simp, by simp, by simp, ?_, ?_, ?_, fun hi => ?_⟩
  · exact flatMap_range_length _ (fun j => vecTriple_length _) count
  · exact flatMap_range_length _ (fun j => vecTriple_length _) count
  · exact flatMap_range_length _ (fun j => rotTriple_length _ _ _ _) count
  · refine ⟨?_, ?_, ?_, ?_, ?_, ?_, ?_, ?_, ?_, ?_, ?_, ?_⟩
    · rw [List.getElem?_map, List.getElem?_range hi]; rfl
    · rw [List.getElem?_map, List.getElem?_range hi]; rfl
    · rw [List.getElem?_map, List.getElem?_range hi]; rfl
    · have := flatMap_range_getElem (fun j => vecTriple (g j).tree)
        (fun j => vecTriple_length _) count i 0 hi (by omega)
      simpa [vecTriple] using this
    · have := flatMap_range_getElem (fun j => vecTriple (g j).tree)
        (fun j => vecTriple_length _) count i 1 hi (by omega)
      simpa [vecTriple] using this
    · have := flatMap_range_getElem (fun j => vecTriple (g j).tree)
        (fun j => vecTriple_length _) count i 2 hi (by omega)
      simpa [vecTriple] using this
    · have := flatMap_range_getElem (fun j => vecTriple (g j).scatter)
        (fun j => vecTriple_length _) count i 0 hi (by omega)
      simpa [vecTriple] using this
    · have := flatMap_range_getElem (fun j => vecTriple (g j).scatter)
        (fun j => vecTriple_length _) count i 1 hi (by omega)
      simpa [vecTriple] using this
    · have := flatMap_range_getElem (fun j => vecTriple (g j).scatter)
        (fun j => vecTriple_length _) count i 2 hi (by omega)
      simpa [vecTriple] using this
    · exact flatMap_range_getElem (fun j => rotTriple (g j) (rA j) (rB j) (rC j))
        (fun j => rotTriple_length _ _ _ _) count i 0 hi (by omega)
    · exact flatMap_range_getElem (fun j => rotTriple (g j) (rA j) (rB j) (rC j))
        (fun j => rotTriple_length _ _ _ _) count i 1 hi (by omega)
    · exact flatMap_range_getElem (fun j => rotTriple (g j) (rA j) (rB j) (rC j))
        (fun j => rotTriple_length _ _ _ _) count i 2 hi (by omega)

/-- Witness for C6 with one particle and concrete generated data. -/
theorem C6_array_lengths_witness :
    (buildData 1 (fun _ => ⟨⟨1, 2, 3⟩, ⟨4, 5, 6⟩, 7, none⟩) 2
        (fun _ => 0) (fun _ => 0) (fun _ => 0) (fun _ => 0) (fun _ => 0)).scales.length = 1 ∧
      (buildData 1 (fun _ => ⟨⟨1, 2, 3⟩, ⟨4, 5, 6⟩, 7, none⟩) 2
        (fun _ => 0) (fun _ => 0) (fun _ => 0) (fun _ => 0) (fun _ => 0)).treePositions[0]? = some 1 :=
  ⟨(C6_array_lengths 1 0 (fun _ => ⟨⟨1, 2, 3⟩, ⟨4, 5, 6⟩, 7, none⟩) 2
      (fun _ => 0) (fun _ => 0) (fun _ => 0) (fun _ => 0) (fun _ => 0)).1,
   by
     have h := (C6_array_lengths 1 0 (fun _ => ⟨⟨1, 2, 3⟩, ⟨4, 5, 6⟩, 7, none⟩) 2
        (fun _ => 0) (fun _ => 0) (fun _ => 0) (fun _ => 0) (fun _ => 0)).2.2.2.2.2.2
        (by norm_num)
     simpa using h.2.2.2.1⟩

/-- The horizontal distance of a point from the vertical tree axis. -/
def horizontalDist (v : Vec3) : ℝ := Real.sqrt (v.x ^ 2 + v.z ^ 2)

/-- A point placed on a circle of radius r around the axis has horizontal
distance exactly r. -/
lemma horizontalDist_circle (θ r yv : ℝ) (hr : 0 ≤ r) :
    horizontalDist ⟨Real.cos θ * r, yv, Real.sin θ * r⟩ = r := by
  unfold horizontalDist
  have h : (Real.cos θ * r) ^ 2 + (Real.sin θ * r) ^ 2 = r ^ 2 := by
    have hcs := Real.sin_sq_add_cos_sq θ
    nlinarith [hcs]
  rw [h, Real.sqrt_sq hr]

/-- The seven successive Math.random() draws of one generateFoliage call. -/
structure FoliageRand where
  r1 : ℝ
  r2 : ℝ
  r3 : ℝ
  r4 : ℝ
  r5 : ℝ
  r6 : ℝ
  r7 : ℝ

/-- The level parameter of generateFoliage: Math.pow(Math.random(), 0.8),
biasing the distribution towards the bottom of the cone. -/
def foliageLevel (rnd : FoliageRand) : ℝ := rnd.r1 ^ (0.8 : ℝ)

/-- The height of a foliage particle: (1 - level) * TREE_HEIGHT -
TREE_HEIGHT / 2. -/
def foliageY (rnd : FoliageRand) : ℝ :=
  (1 - foliageLevel rnd) * TREE_HEIGHT - TREE_HEIGHT / 2

/-- The strict cone radius at the level of the particle: TREE_RADIUS * level. -/
def foliageRadiusAtY (rnd : FoliageRand) : ℝ := TREE_RADIUS * foliageLevel rnd

/-- The shell-thickness factor: (1 - 0.05) + Math.random() * 0.05. -/
def foliageRNorm (rnd : FoliageRand) : ℝ := (1 - 0.05) + rnd.r2 * 0.05

/-- The radial coordinate of a foliage particle: radiusAtY * rNorm. -/
def foliageR (rnd : FoliageRand) : ℝ := foliageRadiusAtY rnd * foliageRNorm rnd

/-- The angular coordinate of a foliage particle: Math.random() * π * 2. -/
def foliageAngle (rnd : FoliageRand) : ℝ := rnd.r3 * π * 2

/-- The generateFoliage position generator: a tree position on the cone
shell, a scatter position on a wide sphere, and a random scale; the
rotation is absent, so MorphingSystem randomises it. -/
def generateFoliage (rnd : FoliageRand) : GenResult :=
  { tree := ⟨Real.cos (foliageAngle rnd) * foliageR rnd, foliageY rnd,
             Real.sin (foliageAngle rnd) * foliageR rnd⟩,
    scatter := ⟨(10 + rnd.r4 * 5) * Real.sin (Real.arccos (2 * rnd.r6 - 1)) * Real.cos (rnd.r5 * π * 2),
                (10 + rnd.r4 * 5) * Real.sin (Real.arccos (2 * rnd.r6 - 1)) * Real.sin (rnd.r5 * π * 2),
                (10 + rnd.r4 * 5) * Real.cos (Real.arccos (2 * rnd.r6 - 1))⟩,
    scale := 0.5 + rnd.r7 * 0.5,
    rotation := none }

/-- The level of a foliage particle lies in [0, 1) when the first random
draw does. -/
lemma foliageLevel_mem {rnd : FoliageRand} (h0 : 0 ≤ rnd.r1) (h1 : rnd.r1 < 1) :
    0 ≤ foliageLevel rnd ∧ foliageLevel rnd < 1 := by
  constructor
  · exact Real.rpow_nonneg h0 _
  · exact Real.rpow_lt_one h0 h1 (by norm_num)

/-- C7. Every foliage tree position lies on the surface shell of the cone: the
height is within [-TREE_HEIGHT/2, TREE_HEIGHT/2] and the horizontal
distance from the axis is between 0.95 and 1.0 times the cone radius at
that height, TREE_RADIUS * (TREE_HEIGHT/2 - y) / TREE_HEIGHT, for all
random draws in [0, 1). -/
theorem C7_foliage_on_shell (rnd : FoliageRand)
    (h1a : 0 ≤ rnd.r1) (h1b : rnd.r1 < 1) (h2a : 0 ≤ rnd.r2) (h2b : rnd.r2 < 1) :
    (-(4.75 : ℝ) ≤ (generateFoliage rnd).tree.y ∧ (generateFoliage rnd).tree.y ≤ 4.75) ∧
      0.95 * (TREE_RADIUS * (TREE_HEIGHT / 2 - (generateFoliage rnd).tree.y) / TREE_HEIGHT) ≤
        horizontalDist (generateFoliage rnd).tree ∧
      horizontalDist (generateFoliage rnd).tree ≤
        1.0 * (TREE_RADIUS * (TREE_HEIGHT / 2 - (generateFoliage rnd).tree.y) / TREE_HEIGHT) := by
  obtain ⟨hl0, hl1⟩ := foliageLevel_mem h1a h1b
  have hty : (generateFoliage rnd).tree.y = foliageY rnd := rfl
  have hcone : TREE_RADIUS * (TREE_HEIGHT / 2 - foliageY rnd) / TREE_HEIGHT =
      foliageRadiusAtY rnd := by
    unfold foliageY foliageRadiusAtY TREE_HEIGHT TREE_RADIUS
    ring
  have hra : 0 ≤ foliageRadiusAtY rnd := by
    unfold foliageRadiusAtY TREE_RADIUS
    positivity
  have hrn : (0.95 : ℝ) ≤ foliageRNorm rnd ∧ foliageRNorm rnd < 1 := by
    unfold foliageRNorm
    constructor <;> nlinarith
  have hr0 : 0 ≤ foliageR rnd := by
    unfold foliageR
    nlinarith [hrn.1]
  have hdist : horizontalDist (generateFoliage rnd).tree = foliageR rnd := by
    unfold generateFoliage
    exact horizontalDist_circle _ _ _ hr0
  refine ⟨?_, ?_, ?_⟩
  · rw [hty]
    unfold foliageY TREE_HEIGHT
    constructor <;> nlinarith
  · rw [hdist, hty, hcone]
    unfold foliageR
    nlinarith [hrn.1]
  · rw [hdist, hty, hcone]
    unfold foliageR
    nlinarith [hrn.2]

/-- Witness for C7 with all random draws zero. -/
theorem C7_foliage_on_shell_witness :
    (-(4.75 : ℝ) ≤ (generateFoliage ⟨0, 0, 0, 0, 0, 0, 0⟩).tree.y ∧
        (generateFoliage ⟨0, 0, 0, 0, 0, 0, 0⟩).tree.y ≤ 4.75) ∧
      0.95 * (TREE_RADIUS * (TREE_HEIGHT / 2 - (generateFoliage ⟨0, 0, 0, 0, 0, 0, 0⟩).tree.y) / TREE_HEIGHT) ≤
        horizontalDist (generateFoliage ⟨0, 0, 0, 0, 0, 0, 0⟩).tree ∧
      horizontalDist (generateFoliage ⟨0, 0, 0, 0, 0, 0, 0⟩).tree ≤
        1.0 * (TREE_RADIUS * (TREE_HEIGHT / 2 - (generateFoliage ⟨0, 0, 0, 0, 0, 0, 0⟩).tree.y) / TREE_HEIGHT) :=
  C7_foliage_on_shell ⟨0, 0, 0, 0, 0, 0, 0⟩ (by norm_num) (by norm_num) (by norm_num) (by norm_num)

/-- The three Math.random() draws of one getSpiralPos call (its scatter
position). -/
structure SpiralRand where
  s1 : ℝ
  s2 : ℝ
  s3 : ℝ

/-- The record returned by getSpiralPos: no scale, a mandatory rotation. -/
structure SpiralResult where
  tree : Vec3
  scatter : Vec3
  rotation : Euler3

/-- The normalised height of ornament i among total: 1 - i / (total - 1),
1 at the bottom, 0 at the top. -/
def spiralYNorm (i total : ℕ) : ℝ := 1 - (i : ℝ) / ((total : ℝ) - 1)

/-- The clamped normalised height: 0.1 + yNorm * 0.85, avoiding the very
top tip and very bottom edge. -/
def spiralYClamped (i total : ℕ) : ℝ := 0.1 + spiralYNorm i total * 0.85

/-- The world height of ornament i: yClamped * TREE_HEIGHT - TREE_HEIGHT/2. -/
def spiralY (i total : ℕ) : ℝ := spiralYClamped i total * TREE_HEIGHT - TREE_HEIGHT / 2

/-- The linear cone slope radius at the height of the ornament:
TREE_RADIUS * (1 - yClamped). -/
def spiralR (i total : ℕ) : ℝ := TREE_RADIUS * (1 - spiralYClamped i total)

/-- The pushed-out radius, 0.3 outside the foliage: r + 0.3. -/
def spiralRPush (i total : ℕ) : ℝ := spiralR i total + 0.3

/-- The golden angle π * (3 - √5) used by the ornament spiral. -/
def goldenAngle : ℝ := π * (3 - Real.sqrt 5)

/-- The spiral angle of ornament i: goldenAngle * i * 20 + offsetAngle. -/
def spiralTheta (i : ℕ) (offsetAngle : ℝ) : ℝ := goldenAngle * (i : ℝ) * 20 + offsetAngle

/-- The getSpiralPos helper: an ornament position on a golden-angle spiral
over the cone surface, an outward-facing rotation (0, -θ, 0), and a random
scatter position in a cube of side 15. -/
def getSpiralPos (i total : ℕ) (offsetAngle : ℝ) (rnd : SpiralRand) : SpiralResult :=
  { tree := ⟨Real.cos (spiralTheta i offsetAngle) * spiralRPush i total, spiralY i total,
             Real.sin (spiralTheta i offsetAngle) * spiralRPush i total⟩,
    scatter := ⟨(rnd.s1 - 0.5) * 15, (rnd.s2 - 0.5) * 15, (rnd.s3 - 0.5) * 15⟩,
    rotation := ⟨0, -spiralTheta i offsetAngle, 0⟩ }

/-- The clamped normalised ornament height lies in [0.1, 0.95]. -/
lemma spiralYClamped_mem {i total : ℕ} (hi : i < total) (ht : 2 ≤ total) :
    (0.1 : ℝ) ≤ spiralYClamped i total ∧ spiralYClamped i total ≤ 0.95 := by
  have hden : (1 : ℝ) ≤ (total : ℝ) - 1 := by
    have : (2 : ℝ) ≤ (total : ℝ) := by exact_mod_cast ht
    linarith
  have hnum : (i : ℝ) ≤ (total : ℝ) - 1 := by
    have : (i : ℝ) + 1 ≤ (total : ℝ) := by exact_mod_cast hi
    linarith
  have hfrac0 : 0 ≤ (i : ℝ) / ((total : ℝ) - 1) :=
    div_nonneg (Nat.cast_nonneg i) (by linarith)
  have hfrac1 : (i : ℝ) / ((total : ℝ) - 1) ≤ 1 :=
    (div_le_one (by linarith)).mpr hnum
  unfold spiralYClamped spiralYNorm
  constructor <;> nlinarith

/-- C10. Every getSpiralPos ornament position has its height inside the
clamped band [0.1 * TREE_HEIGHT - TREE_HEIGHT/2, 0.95 * TREE_HEIGHT -
TREE_HEIGHT/2], its horizontal distance from the axis exactly
TREE_RADIUS * (1 - yClamped) + 0.3, and an outward-facing rotation
(0, -θ, 0), whenever 0 ≤ i < total and total ≥ 2. -/
theorem C10_spiral_band (i total : ℕ) (offsetAngle : ℝ) (rnd : SpiralRand)
    (hi : i < total) (ht : 2 ≤ total) :
    (0.1 * TREE_HEIGHT - TREE_HEIGHT / 2 ≤ (getSpiralPos i total offsetAngle rnd).tree.y ∧
        (getSpiralPos i total offsetAngle rnd).tree.y ≤ 0.95 * TREE_HEIGHT - TREE_HEIGHT / 2) ∧
      horizontalDist (getSpiralPos i total offsetAngle rnd).tree =
        TREE_RADIUS * (1 - spiralYClamped i total) + 0.3 ∧
      (getSpiralPos i total offsetAngle rnd).rotation =
        ⟨0, -spiralTheta i offsetAngle, 0⟩ := by
  obtain ⟨hc0, hc1⟩ := spiralYClamped_mem hi ht
  have hr0 : 0 ≤ spiralRPush i total := by
    unfold spiralRPush spiralR TREE_RADIUS
    nlinarith
  refine ⟨?_, ?_, rfl⟩
  · have hy : (getSpiralPos i total offsetAngle rnd).tree.y = spiralY i total := rfl
    rw [hy]
    unfold spiralY TREE_HEIGHT
    constructor <;> nlinarith
  · have hd : horizontalDist (getSpiralPos i total offsetAngle rnd).tree =
        spiralRPush i total := horizontalDist_circle _ _ _ hr0
    rw [hd]
    unfold spiralRPush spiralR
    rfl

/-- Witness for C10 at the bottom ornament of a two-ornament spiral. -/
theorem C10_spiral_band_witness :
    (0.1 * TREE_HEIGHT - TREE_HEIGHT / 2 ≤ (getSpiralPos 0 2 0 ⟨0, 0, 0⟩).tree.y ∧
        (getSpiralPos 0 2 0 ⟨0, 0, 0⟩).tree.y ≤ 0.95 * TREE_HEIGHT - TREE_HEIGHT / 2) ∧
      horizontalDist (getSpiralPos 0 2 0 ⟨0, 0, 0⟩).tree =
        TREE_RADIUS * (1 - spiralYClamped 0 2) + 0.3 ∧
      (getSpiralPos 0 2 0 ⟨0, 0, 0⟩).rotation = ⟨0, -spiralTheta 0 0, 0⟩ :=
  C10_spiral_band 0 2 0 ⟨0, 0, 0⟩ (by norm_num) (by norm_num)

end

end XmasScene
